import Mathlib

/-!
Shallow embedding of the telemetry generator of `cdn-telemetry-kit`
(`src/telemetry_kit/generator.py` and `src/telemetry_kit/schema.py`).

Python floats are modelled as real numbers, Python ints as `Int`/`Nat`,
`datetime` values as integer microseconds since the epoch (UTC), and the
seeded numpy random generator as an abstract state-threading source of
draws (`RandSource`) whose only assumed facts are support facts that hold
for the corresponding numpy samplers (a binomial draw is at most its
number of trials, `choice` without replacement returns distinct in-range
indices of the requested size).
-/

namespace Telemetry

/-- Embedding of `str.startswith`: the pattern is a prefix of the string,
as a character-list check (kernel-reducible, unlike `String.startsWith`). -/
def strStartsWith (s p : String) : Bool :=
  p.toList.isPrefixOf s.toList

/-- `schema.DEFAULT_SERVICES`. -/
def DEFAULT_SERVICES : List String :=
  ["live", "vod", "dvr", "eas", "live_ott", "app_backend"]

/-- `schema.DEFAULT_CONTENT_TYPES`. -/
def DEFAULT_CONTENT_TYPES : List String := ["manifest", "segment", "api"]

/-- `schema.DEFAULT_REGIONS`. -/
def DEFAULT_REGIONS : List String :=
  ["us-east", "us-west", "us-central", "eu-west", "eu-central",
   "ap-south", "ap-northeast", "sa-east"]

/-- `schema.DEFAULT_UA_FAMILIES`. -/
def DEFAULT_UA_FAMILIES : List String :=
  ["stb", "mobile", "web", "smart_tv", "console"]

/-- `generator.Incident`: timestamps are UTC epoch microseconds. -/
structure Incident where
  name : String
  start_ts : ℤ
  end_ts : ℤ
  kind : String
  partner : Option String
  service : Option String
  region : Option String
  pop : Option String
  content_type : Option String
  intensity : ℝ

/-- One entry of the slice pool: a 7-tuple of dimension values. -/
structure Slice where
  partner : String
  service : String
  region : String
  pop : String
  host : String
  ctype : String
  ua_family : String
deriving Inhabited, DecidableEq

/-- The per-slice-minute mutable metric state that the incident loop
reads and writes (`requests` and `mb` are read-only inputs to it). -/
structure Metrics where
  requests : ℕ
  mb : ℝ
  p50 : ℝ
  p95 : ℝ
  p99 : ℝ
  cache_hit : ℝ
  status_500 : ℕ
  status_502 : ℕ
  status_503 : ℕ
  status_504 : ℕ
  crc_errors : ℕ

/-- One emitted row (`rows.append({...})` in `generate_minute_logs`). -/
structure Row where
  seed : ℤ
  ts : ℤ
  partner : String
  service : String
  region : String
  pop : String
  host : String
  content_type : String
  ua_family : String
  requests : ℕ
  bytes_sent : ℤ
  p50_ms : ℝ
  p95_ms : ℝ
  p99_ms : ℝ
  cache_hit_rate : ℝ
  http_2xx_count : ℤ
  http_3xx_count : ℤ
  http_4xx_count : ℤ
  http_5xx_count : ℤ
  status_500 : ℕ
  status_502 : ℕ
  status_503 : ℕ
  status_504 : ℕ
  crc_errors : ℕ

/-- The full argument list of `generate_minute_logs` (the optional catalog
arguments are `Option`s, `None` selecting the schema default, like the
`x or DEFAULT_X` idiom in the source). -/
structure GenArgs where
  start_ts_utc : ℤ
  minutes : ℕ
  n_partners : ℕ
  n_pops : ℕ
  n_hosts : ℕ
  services : Option (List String)
  regions : Option (List String)
  content_types : Option (List String)
  ua_families : Option (List String)
  seed : ℤ
  incidents : List Incident
  density : ℝ

/-- Abstract model of `np.random.default_rng(seed)` and the draws the
generator takes from it.  Each sampler is a pure function of the
generator state returning the drawn value and the successor state; the
proof fields record the support facts of the corresponding numpy
samplers that the generator relies on. -/
structure RandSource (σ : Type) where
  init : ℤ → σ
  pick : ℕ → σ → ℕ × σ
  pickK : ℕ → ℕ → σ → List ℕ × σ
  poisson : ℝ → σ → ℕ × σ
  normal : ℝ → ℝ → σ → ℝ × σ
  lognormal : ℝ → ℝ → σ → ℝ × σ
  binomial : ℕ → ℝ → σ → ℕ × σ
  pick_lt : ∀ n s, 0 < n → (pick n s).1 < n
  binomial_le : ∀ n p s, (binomial n p s).1 ≤ n
  pickK_length : ∀ n k s, k ≤ n → ((pickK n k s).1).length = k
  pickK_nodup : ∀ n k s, ((pickK n k s).1).Nodup
  pickK_lt : ∀ n k s, k ≤ n → ∀ i ∈ (pickK n k s).1, i < n

/-- `generator._clamp`. -/
noncomputable def _clamp (x lo hi : ℝ) : ℝ := max lo (min hi x)

/-- `generator._matches`. -/
def _matches (val : String) (expected : Option String) : Bool :=
  match expected with
  | none => true
  | some e => val == e

/-- UTC hour-of-day of an epoch-microsecond timestamp (`ts.hour`). -/
def tsHour (t : ℤ) : ℤ := (t / 3600000000) % 24

/-- `generator._utc_minute_floor`: zero the seconds and microseconds. -/
def minuteFloor (t : ℤ) : ℤ := (t / 60000000) * 60000000

/-- Python `int(x)` on a float: truncation toward zero. -/
noncomputable def truncInt (x : ℝ) : ℤ := if 0 ≤ x then ⌊x⌋ else -⌊-x⌋

/-- The closure `traffic_multiplier` in `generate_minute_logs`. -/
noncomputable def traffic_multiplier (ts : ℤ) : ℝ :=
  0.85 + 0.35 * Real.sin (((tsHour ts : ℝ) - 14) * (2 * Real.pi / 24))

/-- The `base_rps` lookup table (`.get(service, 30)`). -/
noncomputable def base_rps (service : String) : ℝ :=
  if service = "live" then 90
  else if service = "vod" then 60
  else if service = "dvr" then 25
  else if service = "eas" then 10
  else if service = "live_ott" then 40
  else if service = "app_backend" then 35
  else 30

/-- The `ctype_mult` lookup table (`.get(ctype, 0.6)`). -/
noncomputable def ctype_mult (ctype : String) : ℝ :=
  if ctype = "manifest" then 0.35
  else if ctype = "segment" then 1.0
  else if ctype = "api" then 0.55
  else 0.6

/-- `region_mult = 1.0 + (0.15 if region.startswith("us") else 0.05)`. -/
noncomputable def region_mult (region : String) : ℝ :=
  1.0 + (if strStartsWith region "us" then 0.15 else 0.05)

/-- The `base_cache` lookup table (`.get(ctype, 0.75)`). -/
noncomputable def base_cache (ctype : String) : ℝ :=
  if ctype = "manifest" then 0.82
  else if ctype = "segment" then 0.90
  else if ctype = "api" then 0.55
  else 0.75

/-- The `base_p50` lookup table (`.get(ctype, 110)`). -/
noncomputable def base_p50 (ctype : String) : ℝ :=
  if ctype = "manifest" then 120
  else if ctype = "segment" then 80
  else if ctype = "api" then 160
  else 110

/-- The `svc_add` lookup table (`.get(service, 15)`). -/
noncomputable def svc_add (service : String) : ℝ :=
  if service = "live" then 15
  else if service = "vod" then 10
  else if service = "dvr" then 20
  else if service = "eas" then 25
  else if service = "live_ott" then 18
  else if service = "app_backend" then 30
  else 15

/-- The `avg_bytes` lookup table (`.get(ctype, 120_000)`). -/
noncomputable def avg_bytes (ctype : String) : ℝ :=
  if ctype = "manifest" then 18000
  else if ctype = "segment" then 900000
  else if ctype = "api" then 45000
  else 120000

/-- The arrival rate `lam = max(0.0, base_rps * 60 * ctype_mult *
region_mult * mult)` of a slice at a minute timestamp. -/
noncomputable def lamFor (sl : Slice) (ts : ℤ) : ℝ :=
  max 0 (base_rps sl.service * 60 * ctype_mult sl.ctype *
    region_mult sl.region * traffic_multiplier ts)

/-- The body of the `for inc in incidents` loop: window check, dimension
filter check, then the kind dispatch with effective intensity
`max(0.1, inc.intensity)`. -/
noncomputable def incidentStep (ts : ℤ) (sl : Slice) (m : Metrics)
    (inc : Incident) : Metrics :=
  if ¬(inc.start_ts ≤ ts ∧ ts < inc.end_ts) then m
  else if ¬(_matches sl.partner inc.partner ∧ _matches sl.service inc.service ∧
      _matches sl.region inc.region ∧ _matches sl.pop inc.pop ∧
      _matches sl.ctype inc.content_type) then m
  else
    let inten := max 0.1 inc.intensity
    if inc.kind = "latency" then
      { m with p50 := m.p50 * (1.3 * inten), p95 := m.p95 * (1.8 * inten),
               p99 := m.p99 * (2.2 * inten) }
    else if inc.kind = "cache_collapse" then
      { m with cache_hit := _clamp (m.cache_hit - 0.35 * inten) 0.01 0.99,
               p95 := m.p95 * (1.4 * inten), p99 := m.p99 * (1.7 * inten) }
    else if inc.kind = "origin_overload" then
      { m with status_503 := m.status_503 +
                 (truncInt ((m.requests : ℝ) * _clamp (0.02 * inten) 0.0 0.4)).toNat,
               p95 := m.p95 * (1.5 * inten), p99 := m.p99 * (1.9 * inten) }
    else if inc.kind = "timeouts" then
      { m with status_504 := m.status_504 +
                 (truncInt ((m.requests : ℝ) * _clamp (0.015 * inten) 0.0 0.35)).toNat,
               p99 := m.p99 * (2.4 * inten) }
    else if inc.kind = "crc_spike" then
      { m with crc_errors := m.crc_errors +
                 (truncInt (max 0.0 (m.mb * (0.25 * inten)))).toNat }
    else m

/-- The whole `for inc in incidents` loop, applied in list order. -/
noncomputable def applyIncidents (ts : ℤ) (sl : Slice) :
    List Incident → Metrics → Metrics
  | [], m => m
  | inc :: rest, m => applyIncidents ts sl rest (incidentStep ts sl m inc)

/-- The status bucket allocator (source lines 222-250): derive the
4xx/3xx counts from the post-5xx remainder by binomial draws, assign the
rest to 2xx, and apply the final reconciliation guard.  Returns
`((http_2xx, http_3xx, http_4xx), state)`. -/
noncomputable def bucketCounts {σ : Type} (R : RandSource σ)
    (service ctype : String) (requests http_5xx : ℕ) (s : σ) :
    (ℤ × ℕ × ℕ) × σ :=
  let remaining0 : ℤ := max 0 ((requests : ℤ) - (http_5xx : ℤ))
  let base_4xx := (0.004 : ℝ)
  let base_4xx := if service = "app_backend" then base_4xx * 2.0 else base_4xx
  let base_4xx := if ctype = "api" then base_4xx * 1.5 else base_4xx
  let d12 := R.binomial remaining0.toNat (min base_4xx 0.25) s
  let http_4xx := d12.1
  let remaining1 := remaining0 - (http_4xx : ℤ)
  let base_3xx := (0.02 : ℝ)
  let base_3xx := if ctype = "manifest" then base_3xx * 1.3 else base_3xx
  let base_3xx := if ctype = "api" then base_3xx * 1.1 else base_3xx
  let d13 := R.binomial remaining1.toNat (min base_3xx 0.40) d12.2
  let http_3xx := d13.1
  let remaining2 := remaining1 - (http_3xx : ℤ)
  let http_2xx0 : ℤ := max 0 remaining2
  let http_2xx : ℤ :=
    if http_2xx0 + (http_3xx : ℤ) + (http_4xx : ℤ) + (http_5xx : ℤ) ≠ (requests : ℤ) then
      max 0 ((requests : ℤ) - ((http_3xx : ℤ) + (http_4xx : ℤ) + (http_5xx : ℤ)))
    else http_2xx0
  ((http_2xx, http_3xx, http_4xx), d13.2)

/-- The body of the inner `for idx in idxs` loop of `generate_minute_logs`
for one slice and one minute: all metric draws in source order, the
incident loop, the percentile re-clamp, the status bucket allocation and
the final row.  Returns `none` when the Poisson request draw is zero
(`if requests == 0: continue`). -/
noncomputable def rowFor {σ : Type} (R : RandSource σ) (seed : ℤ)
    (incidents : List Incident) (ts : ℤ) (sl : Slice) (s0 : σ) :
    Option Row × σ :=
  let d1 := R.poisson (lamFor sl ts) s0
  let requests := d1.1
  if requests = 0 then (none, d1.2) else
  let d2 := R.normal (base_cache sl.ctype) 0.05 d1.2
  let cache_hit := _clamp d2.1 0.05 0.99
  let d3 := R.lognormal (Real.log (base_p50 sl.ctype + svc_add sl.service)) 0.25 d2.2
  let p50 := max 5.0 d3.1
  let d4 := R.normal 2.2 0.25 d3.2
  let p95 := p50 * d4.1
  let d5 := R.normal 3.4 0.35 d4.2
  let p99 := p50 * d5.1
  let d6 := R.normal (avg_bytes sl.ctype) (avg_bytes sl.ctype * 0.15) d5.2
  let bytes_sent := truncInt ((requests : ℝ) * max 2000.0 d6.1)
  let base_500 := (0.0004 : ℝ)
  let base_504 := (0.0002 : ℝ)
  let base_500 := if sl.service = "app_backend" then base_500 * 2.0 else base_500
  let base_504 := if sl.service = "app_backend" then base_504 * 1.5 else base_504
  let d7 := R.binomial requests base_500 d6.2
  let d8 := R.binomial requests 0.0003 d7.2
  let d9 := R.binomial requests 0.0002 d8.2
  let d10 := R.binomial requests base_504 d9.2
  let mb := (bytes_sent : ℝ) / 1000000
  let d11 := R.poisson (max 0.0 (mb * 0.002)) d10.2
  let m0 : Metrics :=
    { requests := requests, mb := mb, p50 := p50, p95 := p95, p99 := p99,
      cache_hit := cache_hit, status_500 := d7.1, status_502 := d8.1,
      status_503 := d9.1, status_504 := d10.1, crc_errors := d11.1 }
  let m := applyIncidents ts sl incidents m0
  let p95f := max m.p95 m.p50
  let p99f := max m.p99 p95f
  let http_5xx := m.status_500 + m.status_502 + m.status_503 + m.status_504
  let bc := bucketCounts R sl.service sl.ctype requests http_5xx d11.2
  (some
    { seed := seed, ts := ts, partner := sl.partner, service := sl.service,
      region := sl.region, pop := sl.pop, host := sl.host,
      content_type := sl.ctype, ua_family := sl.ua_family,
      requests := requests, bytes_sent := bytes_sent,
      p50_ms := m.p50, p95_ms := p95f, p99_ms := p99f,
      cache_hit_rate := m.cache_hit,
      http_2xx_count := bc.1.1, http_3xx_count := (bc.1.2.1 : ℤ),
      http_4xx_count := (bc.1.2.2 : ℤ), http_5xx_count := (http_5xx : ℤ),
      status_500 := m.status_500, status_502 := m.status_502,
      status_503 := m.status_503, status_504 := m.status_504,
      crc_errors := m.crc_errors }, bc.2)

/-- The inner `for idx in idxs` loop over the selected pool indices. -/
noncomputable def slicesLoop {σ : Type} (R : RandSource σ) (seed : ℤ)
    (incidents : List Incident) (pool : List Slice) (ts : ℤ) :
    List ℕ → σ → List Row × σ
  | [], s => ([], s)
  | i :: rest, s =>
    let r1 := rowFor R seed incidents ts (pool.getD i default) s
    let r2 := slicesLoop R seed incidents pool ts rest r1.2
    (r1.1.toList ++ r2.1, r2.2)

/-- `k = max(50, int(len(slice_pool) * density))`. -/
noncomputable def kFor (poolLen : ℕ) (density : ℝ) : ℕ :=
  (max 50 (truncInt ((poolLen : ℝ) * density))).toNat

/-- The outer `for m in range(minutes)` loop: the first argument counts
the minutes still to produce, the second is the current minute index. -/
noncomputable def minutesLoop {σ : Type} (R : RandSource σ) (seed : ℤ)
    (incidents : List Incident) (density : ℝ) (pool : List Slice)
    (ts0 : ℤ) : ℕ → ℕ → σ → List Row × σ
  | 0, _, s => ([], s)
  | n + 1, m, s =>
    let ts := ts0 + (m : ℤ) * 60000000
    let d := R.pickK pool.length (kFor pool.length density) s
    let r1 := slicesLoop R seed incidents pool ts d.1 d.2
    let r2 := minutesLoop R seed incidents density pool ts0 n (m + 1) r1.2
    (r1.1 ++ r2.1, r2.2)

/-- The `for _ in range(5000)` slice-pool construction loop. -/
def poolLoop {σ : Type} (R : RandSource σ)
    (partners services regions pops hosts ctypes uas : List String) :
    ℕ → σ → List Slice × σ
  | 0, s => ([], s)
  | n + 1, s =>
    let c1 := R.pick partners.length s
    let c2 := R.pick services.length c1.2
    let c3 := R.pick regions.length c2.2
    let c4 := R.pick pops.length c3.2
    let c5 := R.pick hosts.length c4.2
    let c6 := R.pick ctypes.length c5.2
    let c7 := R.pick uas.length c6.2
    let rest := poolLoop R partners services regions pops hosts ctypes uas n c7.2
    ({ partner := partners.getD c1.1 "", service := services.getD c2.1 "",
       region := regions.getD c3.1 "", pop := pops.getD c4.1 "",
       host := hosts.getD c5.1 "", ctype := ctypes.getD c6.1 "",
       ua_family := uas.getD c7.1 "" } :: rest.1, rest.2)

/-- The `x or DEFAULT` idiom of the source: `None` and the empty list are
both replaced by the default catalog. -/
def orDefault (o : Option (List String)) (d : List String) : List String :=
  match o with
  | none => d
  | some l => if l = [] then d else l

/-- Zero-padded `f"{i:02d}"`. -/
def pad2 (n : ℕ) : String := if n < 10 then "0" ++ toString n else toString n

/-- Zero-padded `f"{i:03d}"`. -/
def pad3 (n : ℕ) : String :=
  if n < 10 then "00" ++ toString n
  else if n < 100 then "0" ++ toString n
  else toString n

/-- Zero-padded `f"{i:04d}"`. -/
def pad4 (n : ℕ) : String :=
  if n < 10 then "000" ++ toString n
  else if n < 100 then "00" ++ toString n
  else if n < 1000 then "0" ++ toString n
  else toString n

/-- `generator.generate_minute_logs`: fresh generator state from the
seed, catalog defaulting, minute-floored start, dimension name lists,
the slice pool, then the minute loop.  The returned dataset is the
ordered list of emitted rows. -/
noncomputable def generate_minute_logs {σ : Type} (R : RandSource σ)
    (a : GenArgs) : List Row :=
  let s0 := R.init a.seed
  let services := orDefault a.services DEFAULT_SERVICES
  let regions := orDefault a.regions DEFAULT_REGIONS
  let content_types := orDefault a.content_types DEFAULT_CONTENT_TYPES
  let ua_families := orDefault a.ua_families DEFAULT_UA_FAMILIES
  let ts0 := minuteFloor a.start_ts_utc
  let partners := (List.range a.n_partners).map (fun i => "partner_" ++ pad2 (i + 1))
  let pops := (List.range a.n_pops).map (fun i => "pop_" ++ pad3 (i + 1))
  let hosts := (List.range a.n_hosts).map (fun i => "host_" ++ pad4 (i + 1))
  let pb := poolLoop R partners services regions pops hosts content_types ua_families 5000 s0
  (minutesLoop R a.seed a.incidents a.density pb.1 ts0 a.minutes 0 pb.2).1

/-- Spec-side restatement of the incident filter match (§4.5): a `None`
filter matches any value, a set filter must equal the slice's value. -/
def specMatches (filter : Option String) (v : String) : Bool :=
  match filter with
  | none => true
  | some x => v == x

/-- Spec-side restatement of incident applicability (§4.5): half-open
time window and all five dimension filters. -/
def specAppliesTo (inc : Incident) (ts : ℤ) (sl : Slice) : Bool :=
  decide (inc.start_ts ≤ ts) && decide (ts < inc.end_ts) &&
  specMatches inc.partner sl.partner && specMatches inc.service sl.service &&
  specMatches inc.region sl.region && specMatches inc.pop sl.pop &&
  specMatches inc.content_type sl.ctype

/-- Spec-side restatement of the §4.5 mutation table, taking the
effective intensity as an explicit argument. -/
noncomputable def specMutate (kind : String) (inten : ℝ) (m : Metrics) : Metrics :=
  if kind = "latency" then
    { m with p50 := m.p50 * (1.3 * inten), p95 := m.p95 * (1.8 * inten),
             p99 := m.p99 * (2.2 * inten) }
  else if kind = "cache_collapse" then
    { m with cache_hit := _clamp (m.cache_hit - 0.35 * inten) 0.01 0.99,
             p95 := m.p95 * (1.4 * inten), p99 := m.p99 * (1.7 * inten) }
  else if kind = "origin_overload" then
    { m with status_503 := m.status_503 +
               (truncInt ((m.requests : ℝ) * _clamp (0.02 * inten) 0.0 0.4)).toNat,
             p95 := m.p95 * (1.5 * inten), p99 := m.p99 * (1.9 * inten) }
  else if kind = "timeouts" then
    { m with status_504 := m.status_504 +
               (truncInt ((m.requests : ℝ) * _clamp (0.015 * inten) 0.0 0.35)).toNat,
             p99 := m.p99 * (2.4 * inten) }
  else if kind = "crc_spike" then
    { m with crc_errors := m.crc_errors +
               (truncInt (max 0.0 (m.mb * (0.25 * inten)))).toNat }
  else m

/-- A concrete `RandSource` used to exercise the theorems on closed
inputs: every Poisson draw returns `v`, every real draw returns `0`,
every binomial draw returns `0`, `choice` returns index `0`, and
`choice` without replacement returns the first `k` indices. -/
noncomputable def constSource (v : ℕ) : RandSource Unit where
  init := fun _ => ()
  pick := fun _ _ => (0, ())
  pickK := fun _ k _ => (List.range k, ())
  poisson := fun _ _ => (v, ())
  normal := fun _ _ _ => (0, ())
  lognormal := fun _ _ _ => (0, ())
  binomial := fun _ _ _ => (0, ())
  pick_lt := fun _ _ h => h
  binomial_le := fun n _ _ => Nat.zero_le n
  pickK_length := fun _ k _ _ => List.length_range k
  pickK_nodup := fun _ k _ => List.nodup_range k
  pickK_lt := fun _ _ _ h _ hi => lt_of_lt_of_le (List.mem_range.mp hi) h

/-- The slice every pool entry of `constSource` evaluates to under the
default catalogs. -/
def poolSlice : Slice :=
  { partner := "partner_01", service := "live", region := "us-east",
    pop := "pop_001", host := "host_0001", ctype := "manifest",
    ua_family := "stb" }

/-- The row `constSource 1` produces for any slice-minute with no
incidents. -/
noncomputable def constRow (seed ts : ℤ) (sl : Slice) : Row :=
  { seed := seed, ts := ts, partner := sl.partner, service := sl.service,
    region := sl.region, pop := sl.pop, host := sl.host,
    content_type := sl.ctype, ua_family := sl.ua_family,
    requests := 1, bytes_sent := 2000,
    p50_ms := 5, p95_ms := 5, p99_ms := 5, cache_hit_rate := 0.05,
    http_2xx_count := 1, http_3xx_count := 0, http_4xx_count := 0,
    http_5xx_count := 0, status_500 := 0, status_502 := 0,
    status_503 := 0, status_504 := 0, crc_errors := 1 }

/-- Concrete arguments used by the closed instances: start at the epoch,
one minute, default catalog sizes, seed 7, no incidents, density 0. -/
noncomputable def argsOne : GenArgs :=
  { start_ts_utc := 0, minutes := 1, n_partners := 6, n_pops := 20,
    n_hosts := 120, services := none, regions := none,
    content_types := none, ua_families := none, seed := 7,
    incidents := [], density := 0 }

/-- The same arguments with `minutes = 0`. -/
noncomputable def argsZero : GenArgs :=
  { start_ts_utc := 0, minutes := 0, n_partners := 6, n_pops := 20,
    n_hosts := 120, services := none, regions := none,
    content_types := none, ua_families := none, seed := 7,
    incidents := [], density := 0 }

lemma max_zero_eq_toNat (z : ℤ) : max 0 z = (z.toNat : ℤ) := by
  rw [max_comm]
  exact (Int.toNat_eq_max z).symm

lemma alloc_arith (req h5 h4 h3 : ℕ) (h2 : ℤ)
    (hb4 : h4 ≤ (max 0 ((req : ℤ) - (h5 : ℤ))).toNat)
    (hb3 : h3 ≤ ((max 0 ((req : ℤ) - (h5 : ℤ))) - (h4 : ℤ)).toNat)
    (hdef : h2 =
      if (max 0 ((max 0 ((req : ℤ) - (h5 : ℤ))) - (h4 : ℤ) - (h3 : ℤ))) +
          (h3 : ℤ) + (h4 : ℤ) + (h5 : ℤ) ≠ (req : ℤ) then
        max 0 ((req : ℤ) - ((h3 : ℤ) + (h4 : ℤ) + (h5 : ℤ)))
      else max 0 ((max 0 ((req : ℤ) - (h5 : ℤ))) - (h4 : ℤ) - (h3 : ℤ))) :
    ((h5 : ℤ) ≤ (req : ℤ) → h2 + (h3 : ℤ) + (h4 : ℤ) + (h5 : ℤ) = (req : ℤ)) ∧
    ((req : ℤ) < (h5 : ℤ) →
      h2 = 0 ∧ (req : ℤ) < h2 + (h3 : ℤ) + (h4 : ℤ) + (h5 : ℤ)) := by
  simp only [max_zero_eq_toNat] at hdef hb4 hb3
  subst hdef
  constructor
  · intro hle
    split_ifs with hg
    · omega
    · omega
  · intro hlt
    split_ifs with hg
    · omega
    · omega

/-- The two C1 facts at the level of the status bucket allocator. -/
lemma bucketCounts_spec {σ : Type} (R : RandSource σ) (service ctype : String)
    (requests http_5xx : ℕ) (s : σ) :
    (((http_5xx : ℤ) ≤ (requests : ℤ) →
        (bucketCounts R service ctype requests http_5xx s).1.1 +
          ((bucketCounts R service ctype requests http_5xx s).1.2.1 : ℤ) +
          ((bucketCounts R service ctype requests http_5xx s).1.2.2 : ℤ) +
          (http_5xx : ℤ) = (requests : ℤ)) ∧
      ((requests : ℤ) < (http_5xx : ℤ) →
        (bucketCounts R service ctype requests http_5xx s).1.1 = 0 ∧
          (requests : ℤ) <
            (bucketCounts R service ctype requests http_5xx s).1.1 +
              ((bucketCounts R service ctype requests http_5xx s).1.2.1 : ℤ) +
              ((bucketCounts R service ctype requests http_5xx s).1.2.2 : ℤ) +
              (http_5xx : ℤ))) := by
  simp only [bucketCounts]
  exact alloc_arith requests http_5xx _ _ _
    (R.binomial_le _ _ _) (R.binomial_le _ _ _) rfl

/-- All per-row facts the claims need, at the level of one slice-minute
row computation. -/
lemma rowFor_spec {σ : Type} (R : RandSource σ) (seed : ℤ)
    (incidents : List Incident) (ts : ℤ) (sl : Slice) (s : σ) (r : Row)
    (h : (rowFor R seed incidents ts sl s).1 = some r) :
    0 < r.requests ∧
    ((r.status_500 + r.status_502 + r.status_503 + r.status_504 : ℕ) : ℤ) =
      r.http_5xx_count ∧
    (r.p50_ms ≤ r.p95_ms ∧ r.p95_ms ≤ r.p99_ms) ∧
    2000 * (r.requests : ℤ) ≤ r.bytes_sent ∧
    (r.http_5xx_count ≤ (r.requests : ℤ) →
      r.http_2xx_count + r.http_3xx_count + r.http_4xx_count + r.http_5xx_count =
        (r.requests : ℤ)) ∧
    ((r.requests : ℤ) < r.http_5xx_count →
      r.http_2xx_count = 0 ∧
        (r.requests : ℤ) <
          r.http_2xx_count + r.http_3xx_count + r.http_4xx_count + r.http_5xx_count) := by
  simp only [rowFor] at h
  split at h
  case isTrue hz => simp at h
  case isFalse hz =>
    simp only [Option.some.injEq] at h
    subst h
    refine ⟨Nat.pos_of_ne_zero hz, rfl, ⟨le_max_right _ _, le_max_right _ _⟩, ?_,
      (bucketCounts_spec R sl.service sl.ctype _ _ _).1,
      (bucketCounts_spec R sl.service sl.ctype _ _ _).2⟩
    have hnn : (0 : ℝ) ≤
        ((R.poisson (lamFor sl ts) s).1 : ℝ) *
          max 2000.0 (R.normal (avg_bytes sl.ctype) (avg_bytes sl.ctype * 0.15)
            (R.normal 3.4 0.35 (R.normal 2.2 0.25 (R.lognormal
              (Real.log (base_p50 sl.ctype + svc_add sl.service)) 0.25
              (R.normal (base_cache sl.ctype) 0.05
                (R.poisson (lamFor sl ts) s).2).2).2).2).2).1 :=
      mul_nonneg (Nat.cast_nonneg _) (le_trans (by norm_num) (le_max_left _ _))
    rw [truncInt, if_pos hnn, Int.le_floor]
    push_cast
    have h1 := mul_le_mul_of_nonneg_left (le_max_left (2000.0 : ℝ)
      ((R.normal (avg_bytes sl.ctype) (avg_bytes sl.ctype * 0.15)
        (R.normal 3.4 0.35 (R.normal 2.2 0.25 (R.lognormal
          (Real.log (base_p50 sl.ctype + svc_add sl.service)) 0.25
          (R.normal (base_cache sl.ctype) 0.05
            (R.poisson (lamFor sl ts) s).2).2).2).2).2).1))
      (Nat.cast_nonneg (α := ℝ) (R.poisson (lamFor sl ts) s).1)
    nlinarith [h1]

/-- Every row of the inner slice loop is produced by some `rowFor` call. -/
lemma mem_slicesLoop {σ : Type} (R : RandSource σ) (seed : ℤ)
    (incidents : List Incident) (pool : List Slice) (ts : ℤ)
    (idxs : List ℕ) :
    ∀ (s : σ) (r : Row), r ∈ (slicesLoop R seed incidents pool ts idxs s).1 →
      ∃ sl s0, (rowFor R seed incidents ts sl s0).1 = some r := by
  induction idxs with
  | nil => intro s r hr; simp [slicesLoop] at hr
  | cons i rest ih =>
    intro s r hr
    simp only [slicesLoop, List.mem_append] at hr
    rcases hr with hr | hr
    · exact ⟨pool.getD i default, s, Option.mem_def.mp (Option.mem_toList.mp hr)⟩
    · exact ih _ r hr

/-- Every row of the minute loop is produced by some `rowFor` call. -/
lemma mem_minutesLoop {σ : Type} (R : RandSource σ) (seed : ℤ)
    (incidents : List Incident) (density : ℝ) (pool : List Slice)
    (ts0 : ℤ) (n : ℕ) :
    ∀ (m : ℕ) (s : σ) (r : Row),
      r ∈ (minutesLoop R seed incidents density pool ts0 n m s).1 →
      ∃ ts sl s0, (rowFor R seed incidents ts sl s0).1 = some r := by
  induction n with
  | zero => intro m s r hr; simp [minutesLoop] at hr
  | succ k ih =>
    intro m s r hr
    simp only [minutesLoop, List.mem_append] at hr
    rcases hr with hr | hr
    · obtain ⟨sl, s0, hsl⟩ := mem_slicesLoop R seed incidents pool _ _ _ r hr
      exact ⟨_, sl, s0, hsl⟩
    · exact ih _ _ r hr

/-- Every emitted row is produced by some `rowFor` call. -/
lemma mem_generate {σ : Type} (R : RandSource σ) (a : GenArgs) (r : Row)
    (hr : r ∈ generate_minute_logs R a) :
    ∃ ts sl s0, (rowFor R a.seed a.incidents ts sl s0).1 = some r := by
  simp only [generate_minute_logs] at hr
  exact mem_minutesLoop R a.seed a.incidents a.density _ _ _ _ _ r hr

/-- When every Poisson draw is zero, no slice-minute emits a row. -/
lemma rowFor_none {σ : Type} (R : RandSource σ)
    (h : ∀ lam s, (R.poisson lam s).1 = 0) (seed : ℤ)
    (incidents : List Incident) (ts : ℤ) (sl : Slice) (s : σ) :
    (rowFor R seed incidents ts sl s).1 = none := by
  simp [rowFor, h]

/-- When every Poisson draw is zero, the slice loop emits no rows. -/
lemma slicesLoop_none {σ : Type} (R : RandSource σ)
    (h : ∀ lam s, (R.poisson lam s).1 = 0) (seed : ℤ)
    (incidents : List Incident) (pool : List Slice) (ts : ℤ)
    (idxs : List ℕ) :
    ∀ s : σ, (slicesLoop R seed incidents pool ts idxs s).1 = [] := by
  induction idxs with
  | nil => intro s; simp [slicesLoop]
  | cons i rest ih =>
    intro s
    simp [slicesLoop, rowFor_none R h, ih]

/-- When every Poisson draw is zero, the minute loop emits no rows. -/
lemma minutesLoop_none {σ : Type} (R : RandSource σ)
    (h : ∀ lam s, (R.poisson lam s).1 = 0) (seed : ℤ)
    (incidents : List Incident) (density : ℝ) (pool : List Slice)
    (ts0 : ℤ) (n : ℕ) :
    ∀ (m : ℕ) (s : σ),
      (minutesLoop R seed incidents density pool ts0 n m s).1 = [] := by
  induction n with
  | zero => intro m s; simp [minutesLoop]
  | succ k ih =>
    intro m s
    simp [minutesLoop, slicesLoop_none R h, ih]

lemma getD_replicate_of_lt {α : Type} (x d : α) {n i : ℕ} (h : i < n) :
    (List.replicate n x).getD i d = x := by
  rw [List.getD_eq_getElem _ _ (by simpa using h)]
  exact List.getElem_replicate _ _

/-- Under a constant source the slice pool is `n` copies of the heads of
the catalogs. -/
lemma poolLoop_const (v : ℕ) (ps ss rs pp hh cc uu : List String) :
    ∀ (n : ℕ) (s : Unit), poolLoop (constSource v) ps ss rs pp hh cc uu n s =
      (List.replicate n
        { partner := ps.getD 0 "", service := ss.getD 0 "",
          region := rs.getD 0 "", pop := pp.getD 0 "",
          host := hh.getD 0 "", ctype := cc.getD 0 "",
          ua_family := uu.getD 0 "" }, ()) := by
  intro n
  induction n with
  | zero => intro s; rfl
  | succ k ih =>
    intro s
    simp only [poolLoop,
      show ∀ (n : ℕ) (s : Unit), (constSource v).pick n s = (0, ()) from fun _ _ => rfl,
      ih, List.replicate]

/-- The row the constant source with one request per draw produces for
any slice-minute, with no incidents. -/
lemma rowFor_const (seed ts : ℤ) (sl : Slice) :
    rowFor (constSource 1) seed [] ts sl () = (some (constRow seed ts sl), ()) := by
  norm_num [rowFor, constSource, bucketCounts, applyIncidents, constRow,
    _clamp, truncInt, Prod.ext_iff, Option.some.injEq, Row.mk.injEq]

/-- Under the constant one-request source a slice loop over indices that
all resolve to the same slice yields one constant row per index. -/
lemma slicesLoop_const (seed ts : ℤ) (pool : List Slice) (sl0 : Slice) :
    ∀ (idxs : List ℕ), (∀ i ∈ idxs, pool.getD i default = sl0) →
      slicesLoop (constSource 1) seed [] pool ts idxs () =
        (List.replicate idxs.length (constRow seed ts sl0), ()) := by
  intro idxs
  induction idxs with
  | nil => intro _; rfl
  | cons i rest ih =>
    intro hall
    have h0 : pool.getD i default = sl0 := hall i (List.mem_cons_self i rest)
    have ih2 := ih (fun j hj => hall j (List.mem_cons_of_mem _ hj))
    simp only [slicesLoop, h0, rowFor_const, ih2, List.replicate,
      Option.toList_some, List.singleton_append, List.length_cons]

/-- One minute of the constant one-request source over a constant pool:
fifty copies of the constant row. -/
lemma minutesLoop_one (seed : ℤ) (sl0 : Slice) :
    minutesLoop (constSource 1) seed [] 0 (List.replicate 5000 sl0) 0 1 0 () =
      (List.replicate 50 (constRow seed 0 sl0), ()) := by
  have hk : kFor (List.replicate 5000 sl0).length 0 = 50 := by
    have h50 : Int.toNat 50 = 50 := rfl
    norm_num [kFor, truncInt, h50]
  have hall : ∀ i ∈ List.range 50, (List.replicate 5000 sl0).getD i default = sl0 := by
    intro i hi
    exact getD_replicate_of_lt _ _ (lt_of_lt_of_le (List.mem_range.mp hi) (by norm_num))
  have hpick : (constSource 1).pickK (List.replicate 5000 sl0).length 50 () =
      (List.range 50, ()) := rfl
  have hrest : minutesLoop (constSource 1) seed [] 0 (List.replicate 5000 sl0) 0 0 1 () =
      ([], ()) := rfl
  simp only [minutesLoop, hk, hpick, hrest]
  rw [slicesLoop_const seed _ _ sl0 (List.range 50) hall]
  norm_num [List.length_range]

/-- The full generator under the constant one-request source at the
closed arguments: fifty copies of the constant row. -/
lemma generate_const :
    generate_minute_logs (constSource 1) argsOne =
      List.replicate 50 (constRow 7 0 poolSlice) := by
  have hslice :
      ({ partner := ((List.range 6).map fun i => "partner_" ++ pad2 (i + 1)).getD 0 "",
         service := DEFAULT_SERVICES.getD 0 "",
         region := DEFAULT_REGIONS.getD 0 "",
         pop := ((List.range 20).map fun i => "pop_" ++ pad3 (i + 1)).getD 0 "",
         host := ((List.range 120).map fun i => "host_" ++ pad4 (i + 1)).getD 0 "",
         ctype := DEFAULT_CONTENT_TYPES.getD 0 "",
         ua_family := DEFAULT_UA_FAMILIES.getD 0 "" } : Slice) = poolSlice := by
    decide
  have hfloor : minuteFloor 0 = 0 := by norm_num [minuteFloor]
  simp only [generate_minute_logs, argsOne, orDefault, hfloor, poolLoop_const, hslice]
  rw [minutesLoop_one 7 poolSlice]

/-- The constant row is a member of the closed generation run. -/
lemma constRow_mem :
    constRow 7 0 poolSlice ∈ generate_minute_logs (constSource 1) argsOne := by
  rw [generate_const]
  exact List.mem_replicate.mpr ⟨by norm_num, rfl⟩

/-- A call with zero minutes returns the empty dataset. -/
lemma generate_empty_zero_minutes {σ : Type} (R : RandSource σ) (a : GenArgs)
    (h : a.minutes = 0) : generate_minute_logs R a = [] := by
  simp [generate_minute_logs, h, minutesLoop]

/-- A call whose Poisson draws are all zero returns the empty dataset. -/
lemma generate_empty_no_requests {σ : Type} (R : RandSource σ) (a : GenArgs)
    (h : ∀ lam s, (R.poisson lam s).1 = 0) : generate_minute_logs R a = [] := by
  simp [generate_minute_logs, minutesLoop_none R h]

/-- Claim C1: for every emitted row, if the 5xx count does not exceed the
request count then the four status buckets sum exactly to `requests`;
and whenever the 5xx count alone exceeds `requests`, the reconciliation
guard clamps `http_2xx_count` to zero yet leaves the bucket sum strictly
greater than `requests`. -/
theorem claim_C1_bucket_sum {σ : Type} (R : RandSource σ) (a : GenArgs)
    (r : Row) (hr : r ∈ generate_minute_logs R a) :
    (r.http_5xx_count ≤ (r.requests : ℤ) →
      r.http_2xx_count + r.http_3xx_count + r.http_4xx_count + r.http_5xx_count =
        (r.requests : ℤ)) ∧
    ((r.requests : ℤ) < r.http_5xx_count →
      r.http_2xx_count = 0 ∧
        (r.requests : ℤ) <
          r.http_2xx_count + r.http_3xx_count + r.http_4xx_count + r.http_5xx_count) := by
  obtain ⟨ts, sl, s0, h⟩ := mem_generate R a r hr
  exact ⟨(rowFor_spec R a.seed a.incidents ts sl s0 r h).2.2.2.2.1,
    (rowFor_spec R a.seed a.incidents ts sl s0 r h).2.2.2.2.2⟩

/-- Closed instance of claim C1 with every hypothesis discharged. -/
theorem claim_C1_witness :
    (constRow 7 0 poolSlice).http_5xx_count ≤ ((constRow 7 0 poolSlice).requests : ℤ) ∧
    (constRow 7 0 poolSlice).http_2xx_count + (constRow 7 0 poolSlice).http_3xx_count +
      (constRow 7 0 poolSlice).http_4xx_count + (constRow 7 0 poolSlice).http_5xx_count =
      ((constRow 7 0 poolSlice).requests : ℤ) :=
  ⟨by norm_num [constRow],
    (claim_C1_bucket_sum (constSource 1) argsOne _ constRow_mem).1
      (by norm_num [constRow])⟩

/-- Claim C2: two calls with identical start timestamp, minute count,
seed, density, dimension catalogs (including the partner/pop/host
counts) and incident list produce identical datasets, field for field. -/
theorem claim_C2_determinism {σ : Type} (R : RandSource σ) (a b : GenArgs)
    (h1 : a.start_ts_utc = b.start_ts_utc) (h2 : a.minutes = b.minutes)
    (h3 : a.n_partners = b.n_partners) (h4 : a.n_pops = b.n_pops)
    (h5 : a.n_hosts = b.n_hosts) (h6 : a.services = b.services)
    (h7 : a.regions = b.regions) (h8 : a.content_types = b.content_types)
    (h9 : a.ua_families = b.ua_families) (h10 : a.seed = b.seed)
    (h11 : a.incidents = b.incidents) (h12 : a.density = b.density) :
    generate_minute_logs R a = generate_minute_logs R b := by
  obtain ⟨a1, a2, a3, a4, a5, a6, a7, a8, a9, a10, a11, a12⟩ := a
  obtain ⟨b1, b2, b3, b4, b5, b6, b7, b8, b9, b10, b11, b12⟩ := b
  dsimp at h1 h2 h3 h4 h5 h6 h7 h8 h9 h10 h11 h12
  subst h1; subst h2; subst h3; subst h4; subst h5; subst h6
  subst h7; subst h8; subst h9; subst h10; subst h11; subst h12
  rfl

/-- Closed instance of claim C2 with every hypothesis discharged. -/
theorem claim_C2_witness :
    generate_minute_logs (constSource 1) argsOne =
      generate_minute_logs (constSource 1) argsOne :=
  claim_C2_determinism (constSource 1) argsOne argsOne
    rfl rfl rfl rfl rfl rfl rfl rfl rfl rfl rfl rfl

/-- Claim C3: for every emitted row the four explicit 5xx subtype counts
sum exactly to `http_5xx_count`, incident mutations included. -/
theorem claim_C3_status_breakdown {σ : Type} (R : RandSource σ) (a : GenArgs)
    (r : Row) (hr : r ∈ generate_minute_logs R a) :
    ((r.status_500 + r.status_502 + r.status_503 + r.status_504 : ℕ) : ℤ) =
      r.http_5xx_count := by
  obtain ⟨ts, sl, s0, h⟩ := mem_generate R a r hr
  exact (rowFor_spec R a.seed a.incidents ts sl s0 r h).2.1

/-- Closed instance of claim C3 with every hypothesis discharged. -/
theorem claim_C3_witness :
    (((constRow 7 0 poolSlice).status_500 + (constRow 7 0 poolSlice).status_502 +
      (constRow 7 0 poolSlice).status_503 + (constRow 7 0 poolSlice).status_504 : ℕ) : ℤ) =
      (constRow 7 0 poolSlice).http_5xx_count :=
  claim_C3_status_breakdown (constSource 1) argsOne _ constRow_mem

/-- Claim C4: for every emitted row the latency percentiles are ordered,
thanks to the final re-clamp after incident mutation. -/
theorem claim_C4_percentile_order {σ : Type} (R : RandSource σ) (a : GenArgs)
    (r : Row) (hr : r ∈ generate_minute_logs R a) :
    r.p50_ms ≤ r.p95_ms ∧ r.p95_ms ≤ r.p99_ms := by
  obtain ⟨ts, sl, s0, h⟩ := mem_generate R a r hr
  exact (rowFor_spec R a.seed a.incidents ts sl s0 r h).2.2.1

/-- Closed instance of claim C4 with every hypothesis discharged. -/
theorem claim_C4_witness :
    (constRow 7 0 poolSlice).p50_ms ≤ (constRow 7 0 poolSlice).p95_ms ∧
    (constRow 7 0 poolSlice).p95_ms ≤ (constRow 7 0 poolSlice).p99_ms :=
  claim_C4_percentile_order (constSource 1) argsOne _ constRow_mem

/-- The spec-side filter match agrees with the source's `_matches`. -/
lemma specMatches_eq_matches (f : Option String) (v : String) :
    specMatches f v = _matches v f := by
  cases f <;> rfl

/-- Unfolding of the spec-side applicability test. -/
lemma specAppliesTo_iff (inc : Incident) (ts : ℤ) (sl : Slice) :
    specAppliesTo inc ts sl = true ↔
      inc.start_ts ≤ ts ∧ ts < inc.end_ts ∧
        (_matches sl.partner inc.partner ∧ _matches sl.service inc.service ∧
         _matches sl.region inc.region ∧ _matches sl.pop inc.pop ∧
         _matches sl.ctype inc.content_type) := by
  simp [specAppliesTo, specMatches_eq_matches, Bool.and_eq_true,
    decide_eq_true_eq, and_assoc]

/-- Claim C5: an incident mutates a slice-minute exactly when the minute
timestamp lies in the half-open window and every set dimension filter
equals the slice's value (unset filters match anything); the mutation
uses effective intensity `max(0.1, intensity)`; and the incident list is
applied sequentially in list order, each step mutating the state already
produced by the previous incidents. -/
theorem claim_C5_incident_scoping (ts : ℤ) (sl : Slice) (inc : Incident)
    (m : Metrics) (incs : List Incident) :
    incidentStep ts sl m inc =
      (if specAppliesTo inc ts sl then
        specMutate inc.kind (max 0.1 inc.intensity) m else m) ∧
    applyIncidents ts sl (inc :: incs) m =
      applyIncidents ts sl incs (incidentStep ts sl m inc) ∧
    applyIncidents ts sl [] m = m := by
  refine ⟨?_, rfl, rfl⟩
  by_cases hc : specAppliesTo inc ts sl = true
  · rw [if_pos hc]
    obtain ⟨hw1, hw2, hm⟩ := (specAppliesTo_iff inc ts sl).mp hc
    simp only [incidentStep, specMutate]
    rw [if_neg (not_not_intro ⟨hw1, hw2⟩), if_neg (not_not_intro hm)]
  · rw [if_neg hc]
    simp only [incidentStep]
    by_cases hw : inc.start_ts ≤ ts ∧ ts < inc.end_ts
    · rw [if_neg (not_not_intro hw)]
      have hm : ¬(_matches sl.partner inc.partner ∧ _matches sl.service inc.service ∧
          _matches sl.region inc.region ∧ _matches sl.pop inc.pop ∧
          _matches sl.ctype inc.content_type) :=
        fun hm => hc ((specAppliesTo_iff inc ts sl).mpr ⟨hw.1, hw.2, hm⟩)
      rw [if_pos hm]
    · rw [if_pos hw]

/-- Claim C6: every emitted row has a positive request count, a call
with zero minutes returns the empty dataset, and a call in which every
slice-minute samples zero requests returns the empty dataset. -/
theorem claim_C6_positive_requests :
    (∀ (σ : Type) (R : RandSource σ) (a : GenArgs) (r : Row),
        r ∈ generate_minute_logs R a → 0 < r.requests) ∧
    (∀ (σ : Type) (R : RandSource σ) (a : GenArgs), a.minutes = 0 →
        generate_minute_logs R a = []) ∧
    (∀ (σ : Type) (R : RandSource σ) (a : GenArgs),
        (∀ lam s, (R.poisson lam s).1 = 0) → generate_minute_logs R a = []) := by
  refine ⟨?_, ?_, ?_⟩
  · intro σ R a r hr
    obtain ⟨ts, sl, s0, h⟩ := mem_generate R a r hr
    exact (rowFor_spec R a.seed a.incidents ts sl s0 r h).1
  · intro σ R a h
    exact generate_empty_zero_minutes R a h
  · intro σ R a h
    exact generate_empty_no_requests R a h

/-- Closed instance of claim C6 with every hypothesis discharged. -/
theorem claim_C6_witness :
    0 < (constRow 7 0 poolSlice).requests ∧
    generate_minute_logs (constSource 1) argsZero = [] ∧
    generate_minute_logs (constSource 0) argsOne = [] :=
  ⟨claim_C6_positive_requests.1 Unit (constSource 1) argsOne _ constRow_mem,
   claim_C6_positive_requests.2.1 Unit (constSource 1) argsZero rfl,
   claim_C6_positive_requests.2.2 Unit (constSource 0) argsOne (fun _ _ => rfl)⟩

/-- Claim C7: the traffic model is the stated pure function of the UTC
hour, and it takes the exact values 0.85 at hour 14 and 1.025 at hour 0. -/
theorem claim_C7_diurnal (ts : ℤ) :
    traffic_multiplier ts =
      0.85 + 0.35 * Real.sin (((tsHour ts : ℝ) - 14) * (2 * Real.pi / 24)) ∧
    (tsHour ts = 14 → traffic_multiplier ts = 0.85) ∧
    (tsHour ts = 0 → traffic_multiplier ts = 1.025) := by
  refine ⟨rfl, ?_, ?_⟩
  · intro h
    rw [traffic_multiplier, h]
    have h0 : (((14 : ℤ) : ℝ) - 14) * (2 * Real.pi / 24) = 0 := by push_cast; ring
    rw [h0, Real.sin_zero]
    norm_num
  · intro h
    rw [traffic_multiplier, h]
    have h0 : (((0 : ℤ) : ℝ) - 14) * (2 * Real.pi / 24) =
        (Real.pi - Real.pi / 6) - 2 * Real.pi := by push_cast; ring
    rw [h0, Real.sin_sub_two_pi, Real.sin_pi_sub, Real.sin_pi_div_six]
    norm_num

/-- Closed instance of claim C7 with every hypothesis discharged. -/
theorem claim_C7_witness :
    traffic_multiplier 50400000000 = 0.85 ∧ traffic_multiplier 0 = 1.025 :=
  ⟨(claim_C7_diurnal 50400000000).2.1 (by decide),
   (claim_C7_diurnal 0).2.2 (by decide)⟩

/-- Claim C8: each minute the sampler draws exactly
`k = max(50, floor(5000 * density))` distinct in-range pool indices
without replacement, and for any density at most zero it still draws
50 indices rather than none. -/
theorem claim_C8_sampler {σ : Type} (R : RandSource σ) (s : σ) (density : ℝ)
    (hd : density ≤ 1) :
    ((kFor 5000 density : ℤ) = max 50 ⌊(5000 : ℝ) * density⌋) ∧
    ((R.pickK 5000 (kFor 5000 density) s).1).length = kFor 5000 density ∧
    ((R.pickK 5000 (kFor 5000 density) s).1).Nodup ∧
    (∀ i ∈ (R.pickK 5000 (kFor 5000 density) s).1, i < 5000) ∧
    (density ≤ 0 → kFor 5000 density = 50) := by
  have hcast : (kFor 5000 density : ℤ) = max 50 ⌊(5000 : ℝ) * density⌋ := by
    have hc : (((5000 : ℕ) : ℝ)) = (5000 : ℝ) := by norm_num
    rw [kFor, hc, truncInt]
    rcases le_or_lt 0 ((5000 : ℝ) * density) with hx | hx
    · rw [if_pos hx, Int.toNat_of_nonneg (le_trans (by norm_num) (le_max_left _ _))]
    · rw [if_neg (not_le.mpr hx)]
      have h1 : ⌊(5000 : ℝ) * density⌋ ≤ 0 := Int.floor_nonpos (le_of_lt hx)
      have h2 : 0 ≤ ⌊-((5000 : ℝ) * density)⌋ := Int.floor_nonneg.mpr (by linarith)
      rw [max_eq_left (by omega), max_eq_left (by omega)]
      rfl
  have hk5000 : kFor 5000 density ≤ 5000 := by
    have hle : (5000 : ℝ) * density ≤ 5000 := by nlinarith
    have hfl : ⌊(5000 : ℝ) * density⌋ ≤ 5000 := by
      calc ⌊(5000 : ℝ) * density⌋ ≤ ⌊(5000 : ℝ)⌋ := Int.floor_le_floor hle
        _ = 5000 := by norm_num
    have hz : (kFor 5000 density : ℤ) ≤ 5000 := by
      rw [hcast]
      omega
    exact_mod_cast hz
  refine ⟨hcast, R.pickK_length _ _ _ hk5000, R.pickK_nodup _ _ _,
    R.pickK_lt _ _ _ hk5000, ?_⟩
  intro hd0
  have h1 : ⌊(5000 : ℝ) * density⌋ ≤ 0 := Int.floor_nonpos (by nlinarith)
  have hz : (kFor 5000 density : ℤ) = 50 := by
    rw [hcast]
    omega
  exact_mod_cast hz

/-- Closed instance of claim C8 with every hypothesis discharged. -/
theorem claim_C8_witness :
    (((constSource 1).pickK 5000 (kFor 5000 0) ()).1).length = kFor 5000 0 ∧
    (0 ≤ (0 : ℝ) → kFor 5000 0 = 50) :=
  ⟨(claim_C8_sampler (constSource 1) () 0 (by norm_num)).2.1,
   fun _ => (claim_C8_sampler (constSource 1) () 0 (by norm_num)).2.2.2.2 le_rfl⟩

/-- Counterexample to claim C9 as stated: the code tests the prefix
"us", not "us-", so with a caller-supplied region catalog containing
"usa" the multiplier is 1.15 although "usa" is not a "us-" region, where
the claim predicts 1.05. -/
theorem claim_C9_counterexample :
    strStartsWith "usa" "us-" = false ∧
    region_mult "usa" ≠ (if strStartsWith "usa" "us-" then (1.15 : ℝ) else 1.05) := by
  have h : strStartsWith "usa" "us" = true := by decide
  have h2 : strStartsWith "usa" "us-" = false := by decide
  refine ⟨h2, ?_⟩
  simp only [region_mult, h, h2, if_true, if_false]
  norm_num

/-- Claim C9 (amended): the region multiplier used in the arrival rate
is 1.15 when the slice's region starts with "us" (in particular for
every region with the "us-" prefix) and 1.05 otherwise, for any
caller-supplied region catalog. -/
theorem claim_C9_region_mult (region : String) :
    region_mult region = (if strStartsWith region "us" then (1.15 : ℝ) else 1.05) ∧
    (strStartsWith region "us-" = true → region_mult region = 1.15) := by
  have hbase : region_mult region =
      (if strStartsWith region "us" then (1.15 : ℝ) else 1.05) := by
    rw [region_mult]
    split_ifs <;> norm_num
  refine ⟨hbase, fun h => ?_⟩
  have h1 : "us-".toList <+: region.toList := by
    have := h
    rw [strStartsWith, List.isPrefixOf_iff_prefix] at this
    exact this
  have h2 : strStartsWith region "us" = true := by
    rw [strStartsWith, List.isPrefixOf_iff_prefix]
    exact List.IsPrefix.trans ⟨['-'], rfl⟩ h1
  rw [hbase, if_pos h2]

/-- Closed instance of claim C9's amended statement with every
hypothesis discharged. -/
theorem claim_C9_witness :
    strStartsWith "us-east" "us-" = true ∧ region_mult "us-east" = 1.15 :=
  ⟨by decide, (claim_C9_region_mult "us-east").2 (by decide)⟩

/-- Claim C10: every emitted row satisfies
`bytes_sent >= 2000 * requests`, and hence `bytes_sent > 0`, because
the per-request byte draw is floored at 2000 before multiplication and
truncation. -/
theorem claim_C10_bytes {σ : Type} (R : RandSource σ) (a : GenArgs)
    (r : Row) (hr : r ∈ generate_minute_logs R a) :
    2000 * (r.requests : ℤ) ≤ r.bytes_sent ∧ 0 < r.bytes_sent := by
  obtain ⟨ts, sl, s0, h⟩ := mem_generate R a r hr
  have hs := rowFor_spec R a.seed a.incidents ts sl s0 r h
  refine ⟨hs.2.2.2.1, ?_⟩
  have h1 := hs.1
  have h2 := hs.2.2.2.1
  omega

/-- Closed instance of claim C10 with every hypothesis discharged. -/
theorem claim_C10_witness :
    2000 * ((constRow 7 0 poolSlice).requests : ℤ) ≤
      (constRow 7 0 poolSlice).bytes_sent ∧
    0 < (constRow 7 0 poolSlice).bytes_sent :=
  claim_C10_bytes (constSource 1) argsOne _ constRow_mem

end Telemetry
